import Mathlib

/-!
Verification of the network-watchdog monitoring engine.

Shallow embedding of the Go sources (`main.go` and the extended variant):
the probe functions `requestProbe` and `pingProbe`, the remediation address
computation of `resetServer`, and the per-tick state machine of `loopCheck`.
External effects (HTTP transport, ICMP replies, SSH sessions) are passed in
as explicit environment values; the embedded functions reproduce the control
flow of the Go code on those values.
-/

namespace NetworkWatchdog

/-- Embeds Go `error` values produced by the watchdog and its collaborators.
`statusCodeIsNot204` and `pingProbeUnfinished` are the two sentinel errors
declared in the source; `transport` stands for any error coming back from a
collaborator (HTTP client, pinger constructor, SSH dial/session/run). -/
inductive GoError
  | statusCodeIsNot204
  | pingProbeUnfinished
  | transport (msg : String)
  deriving DecidableEq, Repr

/-- Embeds the message text of the two sentinel errors declared with
`errors.New` in the source. -/
def GoError.message : GoError → String
  | .statusCodeIsNot204 => "response status code is not 204"
  | .pingProbeUnfinished => "ping probe unfinished"
  | .transport m => m

/-- Embeds `http.StatusOK`. -/
def statusOK : Nat := 200

/-- Embeds `http.StatusNoContent`. -/
def statusNoContent : Nat := 204

/-- Embeds `requestProbe` from the source.  `newRequestError` is the error
result of `http.NewRequest`; `doResult` is the result of
`conf.httpClient.Do(req)`: either a transport error or a response carrying a
status code.  The Go code returns `nil` on status 200, the sentinel error on
any status other than 204, and the (nil) `err` otherwise. -/
def requestProbe (newRequestError : Option GoError)
    (doResult : Except GoError Nat) : Option GoError :=
  match newRequestError with
  | some e => some e
  | none =>
    match doResult with
    | .error e => some e
    | .ok statusCode =>
      if statusCode = statusOK then
        none
      else if statusCode ≠ statusNoContent then
        some .statusCodeIsNot204
      else
        none

/-- Embeds `strings.SplitN(s, " ", 2)` on the character list of the string:
if a space occurs, the part before the first space and the remainder after
it; otherwise the single-element list. -/
def goSplitN2Space (s : List Char) : List (List Char) :=
  if ' ' ∈ s then
    [s.takeWhile (fun c => c ≠ ' '), (s.dropWhile (fun c => c ≠ ' ')).drop 1]
  else
    [s]

/-- Embeds the pinger configuration set by `pingProbe`:
`pinger.Count = 3`, `pinger.Timeout = 5 * time.Second`,
`pinger.SetPrivileged(true)`. -/
structure PingerConfig where
  count : Nat
  timeoutSeconds : Nat
  privileged : Bool
  deriving DecidableEq, Repr

/-- The concrete pinger configuration from the source. -/
def pingerSetup : PingerConfig :=
  { count := 3, timeoutSeconds := 5, privileged := true }

/-- Environment for one `pingProbe` invocation: the error result of
`ping.NewPinger(target)` and the number of echo replies received by
`pinger.Run()` (`pinger.PacketsRecv`). -/
structure PingEnv where
  newPingerError : Option GoError
  packetsRecv : Nat
  deriving DecidableEq, Repr

/-- Outcome of a probe invocation: a Go panic (which would kill the process)
or a normal return carrying `none` for success / `some e` for failure. -/
inductive ProbeOutcome
  | panicked (msg : String)
  | result (probeErr : Option GoError)
  deriving DecidableEq, Repr

/-- Embeds `pingProbe` from the source: split the probe URL at the first
space (`strings.SplitN(conf.ProbeURL, " ", 2)`), panic if fewer than two
parts, otherwise construct the pinger, run it, and fail with the sentinel
error when `pinger.PacketsRecv < pinger.Count`. -/
def pingProbe (probeURL : String) (env : PingEnv) : ProbeOutcome :=
  let parts := goSplitN2Space probeURL.data
  if parts.length < 2 then
    .panicked "malformed ping probe url"
  else
    match env.newPingerError with
    | some e => .result (some e)
    | none =>
      if env.packetsRecv < pingerSetup.count then
        .result (some .pingProbeUnfinished)
      else
        .result none

/-- Embeds `strings.LastIndex(conf.Server.Hostname, ":") >= 0`: a last index
of `":"` is non-negative exactly when a colon occurs in the hostname. -/
def hostnameHasColon (hostname : String) : Bool :=
  hostname.data.contains ':'

/-- Embeds the address computation of `resetServer`: the hostname is used
unchanged when it contains a colon, and gets the SSH default port `":22"`
appended otherwise. -/
def resetServerAddr (hostname : String) : String :=
  if hostnameHasColon hostname then hostname else hostname ++ ":22"

/-- Embeds `strings.HasPrefix(conf.ProbeURL, "ping ")`, the probe dispatch
condition of `loopCheck`. -/
def usesPingProbe (probeURL : String) : Bool :=
  "ping ".data.isPrefixOf probeURL.data

/-- Environment for one tick of `loopCheck`: the external results consumed
by whichever probe runs this tick and by `resetServer` should it be
invoked.  `resetResult` is `.ok output` on remediation success and
`.error e` when dial, session creation or `session.Run` fails. -/
structure TickEnv where
  pingEnv : PingEnv
  newRequestError : Option GoError
  doResult : Except GoError Nat
  resetResult : Except GoError String
  deriving Repr

/-- Embeds the probe dispatch of `loopCheck`: `pingProbe` when the probe URL
starts with `"ping "`, `requestProbe` otherwise. -/
def runProbe (probeURL : String) (env : TickEnv) : ProbeOutcome :=
  if usesPingProbe probeURL then
    pingProbe probeURL env.pingEnv
  else
    .result (requestProbe env.newRequestError env.doResult)

/-- Embeds the counter update of the probe step of `loopCheck`:
`counter++` on probe error, `counter = 0` on probe success. -/
def probeStepCounter (counter : Int) (probeErr : Option GoError) : Int :=
  match probeErr with
  | some _ => counter + 1
  | none => 0

/-- Result of the counter/remediation logic of one tick. -/
structure TickResult where
  counter : Int
  remediationInvoked : Bool
  remediationOk : Bool
  deriving DecidableEq, Repr

/-- Embeds the body of the `ticker.C` case of `loopCheck` after the probe
returned `probeErr`: update the counter, and when it has reached
`conf.DownTimes`, invoke `resetServer`, resetting the counter to 0 exactly
when remediation succeeded. -/
def tickStep (downTimes counter : Int) (probeErr : Option GoError)
    (resetResult : Except GoError String) : TickResult :=
  if probeStepCounter counter probeErr ≥ downTimes then
    match resetResult with
    | .ok _ => { counter := 0, remediationInvoked := true, remediationOk := true }
    | .error _ =>
      { counter := probeStepCounter counter probeErr,
        remediationInvoked := true, remediationOk := false }
  else
    { counter := probeStepCounter counter probeErr,
      remediationInvoked := false, remediationOk := false }

/-- Outcome of a full tick: a panic escaping from the probe, or the normal
counter/remediation result. -/
inductive TickOutcome
  | panicked (msg : String)
  | normal (r : TickResult)
  deriving DecidableEq, Repr

/-- Recognizer for the normal (non-panicking) tick outcome. -/
def TickOutcome.isNormal : TickOutcome → Bool
  | .panicked _ => false
  | .normal _ => true

/-- Embeds one full tick of `loopCheck`: run the dispatched probe, then the
counter/remediation logic on its result.  A probe panic aborts the tick. -/
def tick (probeURL : String) (downTimes counter : Int) (env : TickEnv) :
    TickOutcome :=
  match runProbe probeURL env with
  | .panicked m => .panicked m
  | .result probeErr => .normal (tickStep downTimes counter probeErr env.resetResult)

/-- One resolution of the `select` in `loopCheck`: either the stop channel
delivers (it was closed) or the ticker fires, with the external results the
tick will consume. -/
inductive LoopEvent
  | stopSignal
  | tickFires (env : TickEnv)

/-- Observable state of one monitor loop: the private counter, ghost
counters of how many probe invocations and remediation attempts have
happened, and flags recording loop exit (`stopped`) or a Go panic
(`crashed`). -/
structure LoopState where
  counter : Int
  probes : Nat
  remediations : Nat
  stopped : Bool
  crashed : Bool
  deriving Repr

/-- Embeds `counter := 0` at the start of `loopCheck`. -/
def initialLoopState : LoopState :=
  { counter := 0, probes := 0, remediations := 0, stopped := false, crashed := false }

/-- Embeds the `for`/`select` loop of `loopCheck` over a finite list of
select resolutions: on a stop signal the loop exits at once (`break loop`),
processing nothing further; on a ticker fire the full tick body runs and
the loop continues with the updated counter. -/
def loopCheck (probeURL : String) (downTimes : Int) :
    List LoopEvent → LoopState → LoopState
  | [], s => s
  | .stopSignal :: _, s => { s with stopped := true }
  | .tickFires env :: rest, s =>
    match tick probeURL downTimes s.counter env with
    | .panicked _ => { s with probes := s.probes + 1, crashed := true }
    | .normal r =>
      loopCheck probeURL downTimes rest
        { s with
          counter := r.counter,
          probes := s.probes + 1,
          remediations := s.remediations + (if r.remediationInvoked then 1 else 0) }

/-! Helper lemmas shared by the claim theorems. -/

/-- Helper: the remediation branch of a tick runs exactly when the counter,
as updated by the probe step, has reached the threshold. -/
theorem tickStep_invoked_iff (downTimes counter : Int) (probeErr : Option GoError)
    (resetResult : Except GoError String) :
    (tickStep downTimes counter probeErr resetResult).remediationInvoked = true ↔
      downTimes ≤ probeStepCounter counter probeErr := by
  by_cases h : probeStepCounter counter probeErr ≥ downTimes
  · cases resetResult <;> simp [tickStep, h]
  · simp [tickStep, h]

/-- Helper: a tick whose remediation step fails keeps the counter the probe
step produced. -/
theorem tickStep_counter_on_reset_error (downTimes counter : Int)
    (probeErr : Option GoError) (e : GoError) :
    (tickStep downTimes counter probeErr (.error e)).counter =
      probeStepCounter counter probeErr := by
  by_cases h : probeStepCounter counter probeErr ≥ downTimes <;>
    simp [tickStep, h]

/-- Helper: a tick whose remediation step fails reports no remediation
success. -/
theorem tickStep_not_ok_on_reset_error (downTimes counter : Int)
    (probeErr : Option GoError) (e : GoError) :
    (tickStep downTimes counter probeErr (.error e)).remediationOk = false := by
  by_cases h : probeStepCounter counter probeErr ≥ downTimes <;>
    simp [tickStep, h]

/-- Helper: a probe URL accepted by the ping dispatch contains a space, so
`strings.SplitN(url, " ", 2)` yields exactly two parts. -/
theorem goSplitN2Space_length_of_usesPingProbe (probeURL : String)
    (h : usesPingProbe probeURL = true) :
    (goSplitN2Space probeURL.data).length = 2 := by
  unfold usesPingProbe at h
  rw [List.isPrefixOf_iff_prefix] at h
  obtain ⟨t, ht⟩ := h
  have hmem : ' ' ∈ probeURL.data := by
    rw [← ht]
    exact List.mem_append_left t (by decide)
  simp [goSplitN2Space, hmem]

/-- Helper: under the loop's dispatch condition, `pingProbe` takes its
normal (non-panicking) branch. -/
theorem pingProbe_eq_of_usesPingProbe (probeURL : String) (env : PingEnv)
    (h : usesPingProbe probeURL = true) :
    pingProbe probeURL env =
      (match env.newPingerError with
       | some e => .result (some e)
       | none =>
         if env.packetsRecv < pingerSetup.count then
           .result (some .pingProbeUnfinished)
         else
           .result none) := by
  have hlen := goSplitN2Space_length_of_usesPingProbe probeURL h
  unfold pingProbe
  simp [hlen]

/-! Claim theorems. -/

/-- C1: For every tick of a Monitor's loop, remediation (`resetServer`) is
invoked if and only if, after the probe step of that tick has updated the
counter, the counter is greater than or equal to the configured threshold
(`down_times`). -/
theorem remediation_iff_threshold_reached (downTimes counter : Int)
    (probeErr : Option GoError) (resetResult : Except GoError String) :
    (tickStep downTimes counter probeErr resetResult).remediationInvoked = true ↔
      probeStepCounter counter probeErr ≥ downTimes :=
  (tickStep_invoked_iff downTimes counter probeErr resetResult).trans ge_iff_le.symm

/-- C2: For every tick and every prior counter value, if the probe succeeds
on that tick then the counter is set to 0 — a single successful probe fully
clears accumulated degradation regardless of the counter's prior value. -/
theorem probe_success_resets_counter (downTimes counter : Int)
    (resetResult : Except GoError String) :
    probeStepCounter counter none = 0 ∧
    (tickStep downTimes counter none resetResult).counter = 0 := by
  refine ⟨rfl, ?_⟩
  unfold tickStep
  by_cases h : probeStepCounter counter none ≥ downTimes
  · rw [if_pos h]
    cases resetResult <;> rfl
  · rw [if_neg h]
    rfl

/-- C3: For every tick, a failed probe increases the counter by exactly 1,
and across the whole loop the counter never decreases except when it is
reset to 0 by a probe success or by a successful remediation. -/
theorem counter_monotone_except_resets (downTimes counter : Int) (e : GoError)
    (probeErr : Option GoError) (resetResult : Except GoError String) :
    probeStepCounter counter (some e) = counter + 1 ∧
    ((tickStep downTimes counter probeErr resetResult).counter = counter + 1 ∨
      ((tickStep downTimes counter probeErr resetResult).counter = 0 ∧
        (probeErr = none ∨
          (tickStep downTimes counter probeErr resetResult).remediationOk = true))) := by
  refine ⟨rfl, ?_⟩
  cases probeErr with
  | none =>
    refine Or.inr ⟨?_, Or.inl rfl⟩
    unfold tickStep
    by_cases h : probeStepCounter counter none ≥ downTimes
    · rw [if_pos h]
      cases resetResult <;> rfl
    · rw [if_neg h]
      rfl
  | some e2 =>
    unfold tickStep
    by_cases h : probeStepCounter counter (some e2) ≥ downTimes
    · rw [if_pos h]
      cases resetResult with
      | ok out => exact Or.inr ⟨rfl, Or.inr rfl⟩
      | error e3 => exact Or.inl rfl
    · rw [if_neg h]
      exact Or.inl rfl

/-- C4: For every tick on which remediation is invoked and fails, the
counter is left unchanged by the remediation step (it stays at least the
threshold), so on the very next tick, if the probe fails again, remediation
is re-attempted with no cooldown. -/
theorem failed_remediation_no_cooldown (downTimes counter : Int)
    (probeErr : Option GoError) (resetErr : GoError)
    (hInv : (tickStep downTimes counter probeErr (.error resetErr)).remediationInvoked
      = true) :
    (tickStep downTimes counter probeErr (.error resetErr)).counter =
        probeStepCounter counter probeErr ∧
    (tickStep downTimes counter probeErr (.error resetErr)).counter ≥ downTimes ∧
    ∀ (e : GoError) (resetResult : Except GoError String),
      (tickStep downTimes
          ((tickStep downTimes counter probeErr (.error resetErr)).counter)
          (some e) resetResult).remediationInvoked = true := by
  have hle := (tickStep_invoked_iff downTimes counter probeErr (.error resetErr)).mp hInv
  have hc := tickStep_counter_on_reset_error downTimes counter probeErr resetErr
  refine ⟨hc, by rw [hc]; exact hle, ?_⟩
  intro e resetResult
  have hstep : probeStepCounter (probeStepCounter counter probeErr) (some e) =
      probeStepCounter counter probeErr + 1 := rfl
  rw [tickStep_invoked_iff, hc, hstep]
  omega

/-- C4 witness: with threshold 1, a failing probe on counter 0 followed by a
failed remediation leaves the counter at 1, and the next failing tick
invokes remediation again. -/
theorem failed_remediation_no_cooldown_witness :
    (tickStep 1 0 (some GoError.statusCodeIsNot204)
        (Except.error GoError.statusCodeIsNot204)).counter = 1 ∧
    (tickStep 1
        ((tickStep 1 0 (some GoError.statusCodeIsNot204)
          (Except.error GoError.statusCodeIsNot204)).counter)
        (some GoError.pingProbeUnfinished)
        (Except.ok "")).remediationInvoked = true := by
  have h := failed_remediation_no_cooldown 1 0 (some GoError.statusCodeIsNot204)
    GoError.statusCodeIsNot204 (by decide)
  exact ⟨h.1, h.2.2 GoError.pingProbeUnfinished (Except.ok "")⟩

/-- C5: The HTTP probe (`requestProbe`) returns success exactly when the
HTTP response status is 200 or 204; any other status, or any
transport-level error from issuing the request, is returned as a
failure. -/
theorem http_probe_success_iff_200_or_204 (statusCode : Nat) (e : GoError)
    (doResult : Except GoError Nat) :
    (requestProbe none (Except.ok statusCode) = none ↔
      statusCode = 200 ∨ statusCode = 204) ∧
    requestProbe none (Except.error e) = some e ∧
    requestProbe (some e) doResult = some e := by
  refine ⟨?_, rfl, rfl⟩
  by_cases h200 : statusCode = 200
  · simp [requestProbe, statusOK, statusNoContent, h200]
  · by_cases h204 : statusCode = 204 <;>
      simp [requestProbe, statusOK, statusNoContent, h200, h204]

/-- C6: The ICMP probe (`pingProbe`) sends 3 echo requests with a 5-second
total timeout and returns success only if all 3 sent packets receive a
reply; receiving fewer replies than packets sent (e.g., 2 of 3) returns the
failure cause "ping probe unfinished". -/
theorem ping_probe_requires_all_replies (probeURL : String) (env : PingEnv)
    (hurl : usesPingProbe probeURL = true) (henv : env.newPingerError = none) :
    pingerSetup.count = 3 ∧ pingerSetup.timeoutSeconds = 5 ∧
    (pingProbe probeURL env = .result none ↔ 3 ≤ env.packetsRecv) ∧
    (env.packetsRecv = 2 →
      pingProbe probeURL env = .result (some GoError.pingProbeUnfinished)) ∧
    GoError.pingProbeUnfinished.message = "ping probe unfinished" := by
  have hp := pingProbe_eq_of_usesPingProbe probeURL env hurl
  rw [henv] at hp
  refine ⟨rfl, rfl, ?_, ?_, rfl⟩
  · rw [hp]
    by_cases h : env.packetsRecv < pingerSetup.count <;>
      simp [h, pingerSetup] at *
  · intro h2
    rw [hp]
    simp [h2, pingerSetup]

/-- C6 witness: on the probe URL "ping 8.8.8.8" with no constructor error,
3 of 3 replies give success and 2 of 3 replies give the unfinished
failure. -/
theorem ping_probe_requires_all_replies_witness :
    pingProbe "ping 8.8.8.8" ⟨none, 3⟩ = ProbeOutcome.result none ∧
    pingProbe "ping 8.8.8.8" ⟨none, 2⟩ =
      ProbeOutcome.result (some GoError.pingProbeUnfinished) := by
  have h1 := ping_probe_requires_all_replies "ping 8.8.8.8" ⟨none, 3⟩ (by decide) rfl
  have h2 := ping_probe_requires_all_replies "ping 8.8.8.8" ⟨none, 2⟩ (by decide) rfl
  exact ⟨h1.2.2.1.mpr (by decide), h2.2.2.2.1 rfl⟩

/-- C7: For every configured remediation hostname, `resetServer` connects to
the hostname unchanged when it contains a colon (port specified), and to
hostname + ":22" when it contains no colon — the SSH port defaults to 22
exactly when no port is specified. -/
theorem ssh_default_port_22 (hostname : String) :
    (hostnameHasColon hostname = true → resetServerAddr hostname = hostname) ∧
    (hostnameHasColon hostname = false →
      resetServerAddr hostname = hostname ++ ":22") := by
  constructor <;> intro h <;> simp [resetServerAddr, h]

/-- C7 witness: a bare hostname gets ":22" appended; a hostname carrying a
port is used unchanged. -/
theorem ssh_default_port_22_witness :
    resetServerAddr "router.local" = "router.local" ++ ":22" ∧
    resetServerAddr "10.0.0.1:2222" = "10.0.0.1:2222" :=
  ⟨(ssh_default_port_22 "router.local").2 (by decide),
   (ssh_default_port_22 "10.0.0.1:2222").1 (by decide)⟩

/-- C8: Probe failures are never fatal: for every input, a probe invocation
reached through the monitor loop's dispatch returns a result or a typed
error, and the tick never ends in a panic that would terminate the
program. -/
theorem probe_invocation_never_fatal (probeURL : String) (downTimes counter : Int)
    (env : TickEnv) :
    (∃ probeErr, runProbe probeURL env = ProbeOutcome.result probeErr) ∧
    (tick probeURL downTimes counter env).isNormal = true := by
  have hrun : ∃ probeErr, runProbe probeURL env = ProbeOutcome.result probeErr := by
    unfold runProbe
    by_cases h : usesPingProbe probeURL
    · rw [if_pos h, pingProbe_eq_of_usesPingProbe probeURL env.pingEnv h]
      cases env.pingEnv.newPingerError with
      | some e => exact ⟨some e, rfl⟩
      | none =>
        by_cases hr : env.pingEnv.packetsRecv < pingerSetup.count
        · exact ⟨some .pingProbeUnfinished, by simp [hr]⟩
        · exact ⟨none, by simp [hr]⟩
    · exact ⟨_, by rw [if_neg h]⟩
  obtain ⟨pe, hpe⟩ := hrun
  refine ⟨⟨pe, hpe⟩, ?_⟩
  unfold tick
  rw [hpe]
  rfl

/-- C9: Once a Monitor's loop observes cancellation (the stop channel
closed), it exits immediately — only the stopped flag changes, so no probe
invocation and no remediation attempt occurs — and every event after the
stop signal is ignored. -/
theorem no_processing_after_stop (probeURL : String) (downTimes : Int)
    (preEvents postEvents : List LoopEvent) (s : LoopState) :
    loopCheck probeURL downTimes (LoopEvent.stopSignal :: postEvents) s =
      { s with stopped := true } ∧
    loopCheck probeURL downTimes
        (preEvents ++ LoopEvent.stopSignal :: postEvents) s =
      loopCheck probeURL downTimes (preEvents ++ [LoopEvent.stopSignal]) s := by
  refine ⟨rfl, ?_⟩
  induction preEvents generalizing s with
  | nil => rfl
  | cons ev rest ih =>
    cases ev with
    | stopSignal => rfl
    | tickFires env =>
      cases htick : tick probeURL downTimes s.counter env with
      | panicked m =>
        simp only [List.cons_append, loopCheck, htick]
      | normal r =>
        simp only [List.cons_append, loopCheck, htick]
        exact ih _

/-- C10: On every tick, the Monitor selects the probe variant by a string
prefix: the ICMP prober (`pingProbe`) is invoked if and only if the
configured probe target string starts with "ping "; for every other probe
target string the HTTP prober (`requestProbe`) is invoked. -/
theorem probe_dispatch_selection (probeURL : String) (env : TickEnv) :
    (usesPingProbe probeURL = true →
      runProbe probeURL env = pingProbe probeURL env.pingEnv) ∧
    (usesPingProbe probeURL = false →
      runProbe probeURL env =
        ProbeOutcome.result (requestProbe env.newRequestError env.doResult)) := by
  constructor <;> intro h <;> simp [runProbe, h]

/-- C10 witness: "ping 8.8.8.8" dispatches to the ICMP prober and the
default generate-204 URL dispatches to the HTTP prober. -/
theorem probe_dispatch_selection_witness :
    runProbe "ping 8.8.8.8" ⟨⟨none, 3⟩, none, Except.ok 204, Except.ok ""⟩ =
      pingProbe "ping 8.8.8.8" ⟨none, 3⟩ ∧
    runProbe "https://www.google.com/generate_204"
        ⟨⟨none, 3⟩, none, Except.ok 204, Except.ok ""⟩ =
      ProbeOutcome.result (requestProbe none (Except.ok 204)) :=
  ⟨(probe_dispatch_selection "ping 8.8.8.8"
      ⟨⟨none, 3⟩, none, Except.ok 204, Except.ok ""⟩).1 (by decide),
   (probe_dispatch_selection "https://www.google.com/generate_204"
      ⟨⟨none, 3⟩, none, Except.ok 204, Except.ok ""⟩).2 (by decide)⟩

end NetworkWatchdog
